import Mathlib

/-!
Verification of the natural-language specification of `obstacle_env/graphics.py`
against a shallow embedding of the source in Lean 4.

Numeric values are modelled over `ℚ` (exact arithmetic).  Python's `int()`
conversion truncates toward zero and is modelled by `pyInt`.  Operations that
can raise a Python exception (indexing a numpy array with too many indices,
attribute access on `None`) are modelled in the `Except PyError` monad.
-/

namespace ObstacleEnv

/-- Python exceptions relevant to this module. -/
inductive PyError where
  | indexError
  | attributeError
  deriving DecidableEq

/-- A numpy array as stored in `SimulationSurface.origin`: either 1-dimensional
(`np.array([0, 0])`, as set by the constructor) or 2-dimensional (a (2,1)
column vector, as set by `move_display_window_to`). -/
inductive NpArr where
  | one : List ℚ → NpArr
  | two : List (List ℚ) → NpArr
  deriving DecidableEq

/-- Two-index access `a[i, j]`.  On a 1-D array this raises
`IndexError: too many indices for array`, exactly as numpy does for
`np.array([0, 0])[0, 0]`. -/
def NpArr.idx2 : NpArr → ℕ → ℕ → Except PyError ℚ
  | NpArr.one _, _, _ => Except.error PyError.indexError
  | NpArr.two rows, i, j =>
    match rows[i]? with
    | some row =>
      match row[j]? with
      | some v => Except.ok v
      | none => Except.error PyError.indexError
    | none => Except.error PyError.indexError

/-- Python `int()` applied to a rational: truncation toward zero. -/
def pyInt (q : ℚ) : ℤ := if 0 ≤ q then ⌊q⌋ else ⌈q⌉

/-- The mutable state of `SimulationSurface` (a pygame `Surface` subclass):
surface dimensions (fixed at construction, `get_width`/`get_height`), the
display origin, the scaling and the centering position. -/
structure SimulationSurface where
  width : ℚ
  height : ℚ
  origin : NpArr
  scaling : ℚ
  centering_position : ℚ
  deriving DecidableEq

namespace SimulationSurface

/-- Class constant `SCALING_FACTOR = 1.3`. -/
def SCALING_FACTOR : ℚ := 13 / 10

/-- Class constant `MOVING_FACTOR = 0.1`. -/
def MOVING_FACTOR : ℚ := 1 / 10

/-- Constructor `SimulationSurface.__init__`: `origin = np.array([0, 0])` (a 1-D array),
`scaling = 15.0`, `centering_position = 0.5`.  The pygame surface arguments
(`flags`, `surf`) carry no state modelled here. -/
def init (width height : ℚ) : SimulationSurface :=
  { width := width
    height := height
    origin := NpArr.one [0, 0]
    scaling := 15
    centering_position := 1 / 2 }

/-- Source `pix(length) = int(length * self.scaling)`. -/
def pix (s : SimulationSurface) (length : ℚ) : ℤ :=
  pyInt (length * s.scaling)

/-- Source `pos2pix(x, y) = (pix(x - origin[0, 0]), pix(y - origin[1, 0]))`.
The origin is indexed as a 2-D array; evaluation order follows the source
(`origin[0, 0]` first). -/
def pos2pix (s : SimulationSurface) (x y : ℚ) : Except PyError (ℤ × ℤ) :=
  match s.origin.idx2 0 0 with
  | Except.error e => Except.error e
  | Except.ok ox =>
    match s.origin.idx2 1 0 with
    | Except.error e => Except.error e
    | Except.ok oy => Except.ok (s.pix (x - ox), s.pix (y - oy))

/-- Source `move_display_window_to(position)`:
`origin = position - np.array([[centering_position * width / scaling], [height / (2 * scaling)]])`.
The position argument is the (2,1) column vector `(px, py)`; the result is the
(2,1) column vector stored in `origin`. -/
def move_display_window_to (s : SimulationSurface) (px py : ℚ) : SimulationSurface :=
  { s with
    origin := NpArr.two
      [[px - s.centering_position * s.width / s.scaling],
       [py - s.height / (2 * s.scaling)]] }

end SimulationSurface

/-- The pygame key codes handled by `SimulationSurface.handle_event`
(`K_l`, `K_o`, `K_m`, `K_k`), plus any other key. -/
inductive Key where
  | K_l
  | K_o
  | K_m
  | K_k
  | otherKey
  deriving DecidableEq

/-- A pygame event: `QUIT`, `KEYDOWN` with a key code, or any other event. -/
inductive Event where
  | quit
  | keydown (key : Key)
  | otherEvent
  deriving DecidableEq

/-- Source `handle_event`: on `KEYDOWN`, four sequential `if` tests on `event.key`
(the keys are distinct, so at most one fires):
`K_l`: `scaling *= 1 / SCALING_FACTOR`; `K_o`: `scaling *= SCALING_FACTOR`;
`K_m`: `centering_position -= MOVING_FACTOR`;
`K_k`: `centering_position += MOVING_FACTOR`.  Other events are ignored. -/
def SimulationSurface.handle_event (s : SimulationSurface) (e : Event) : SimulationSurface :=
  match e with
  | Event.keydown k =>
    let s1 := if k = Key.K_l then
      { s with scaling := s.scaling * (1 / SimulationSurface.SCALING_FACTOR) } else s
    let s2 := if k = Key.K_o then
      { s1 with scaling := s1.scaling * SimulationSurface.SCALING_FACTOR } else s1
    let s3 := if k = Key.K_m then
      { s2 with centering_position := s2.centering_position - SimulationSurface.MOVING_FACTOR } else s2
    let s4 := if k = Key.K_k then
      { s3 with centering_position := s3.centering_position + SimulationSurface.MOVING_FACTOR } else s3
    s4
  | _ => s

/-- An obstacle of the external scene: a world position (indexed by the
renderer as a (2,1) column, `obstacle['position'][0, 0]`) and a radius. -/
structure Obstacle where
  position : NpArr
  radius : ℚ

/-- The external scene: an ordered collection of obstacles. -/
structure Scene where
  obstacles : List Obstacle

/-- The external agent/dynamics object: a world position, indexed by the
renderer as `dynamics.position[0, 0]`. -/
structure Dynamics where
  position : NpArr

/-- Colors used by the draw pass. -/
inductive Color where
  | white
  | grey
  deriving DecidableEq

/-- A draw call issued to pygame. `width = 0` means filled. -/
inductive DrawCall where
  | rect (color : Color) (x y w h : ℚ) (width : ℕ)
  | circle (color : Color) (center : ℤ × ℤ) (radius : ℤ) (width : ℕ)
  deriving DecidableEq

namespace Scene2dGraphics

/-- Source `Scene2dGraphics.display(scene, surface)`: fill the whole surface with a
white rectangle, then for each obstacle (in scene order) draw a filled grey
circle at `pos2pix(position[0, 0], position[1, 0])` with radius
`pix(radius)`. -/
def display (scene : Scene) (s : SimulationSurface) : Except PyError (List DrawCall) := do
  let circles ← scene.obstacles.mapM (fun obstacle => do
    let px ← obstacle.position.idx2 0 0
    let py ← obstacle.position.idx2 1 0
    let position ← s.pos2pix px py
    pure (DrawCall.circle Color.grey position (s.pix obstacle.radius) 0))
  pure (DrawCall.rect Color.white 0 0 s.width s.height 0 :: circles)

/-- Source `Scene2dGraphics.display_dynamics(dynamics, surface)`: draws a grey circle
outline (width 1) of pixel radius `pix(0.2)` at the dynamics position.  The
source reads `dynamics.position` unconditionally; when the dynamics object is
`None` this attribute access raises `AttributeError`. -/
def display_dynamics (dynamics : Option Dynamics) (s : SimulationSurface) :
    Except PyError (List DrawCall) :=
  match dynamics with
  | none => Except.error PyError.attributeError
  | some d => do
    let px ← d.position.idx2 0 0
    let py ← d.position.idx2 1 0
    let position ← s.pos2pix px py
    pure [DrawCall.circle Color.grey position (s.pix (2 / 10)) 1]

end Scene2dGraphics

namespace EnvViewer

/-- The drawing portion of `EnvViewer.display`: after recentering, it calls
`Scene2dGraphics.display(self.env.scene, self.sim_surface)` and then,
unconditionally, `Scene2dGraphics.display_dynamics(self.env.dynamics,
self.sim_surface)`. -/
def drawPass (scene : Scene) (dynamics : Option Dynamics) (s : SimulationSurface) :
    Except PyError (List DrawCall) := do
  let sceneCalls ← Scene2dGraphics.display scene s
  let dynCalls ← Scene2dGraphics.display_dynamics dynamics s
  pure (sceneCalls ++ dynCalls)

/-- Class constant `TMP_FOLDER = os.path.join('out', 'tmp')`. -/
def TMP_FOLDER : String := "out/tmp"

/-- Python `'\x7b:04d\x7d'.format(n)` for a natural number: decimal digits,
left-padded with zeros to at least 4 characters. -/
def pad4 (n : ℕ) : String :=
  let s := toString n
  if s.length < 4 then String.mk (List.replicate (4 - s.length) '0') ++ s else s

/-- The frame image path `'\x7b\x7d/\x7b\x7d_\x7b:04d\x7d.bmp'.format(TMP_FOLDER, video_name, frame)`. -/
def frameFileName (video_name : String) (frame : ℕ) : String :=
  TMP_FOLDER ++ "/" ++ video_name ++ "_" ++ pad4 frame ++ ".bmp"

/-- The capture-relevant state of `EnvViewer`: the frame counter and the
frame images saved so far (`__init__` sets `frame = 0` and an empty
directory). -/
structure ViewerState where
  frame : ℕ
  saved : List String
  deriving DecidableEq

/-- The capture step at the end of `EnvViewer.display` when `record_video`
holds: `self.frame += 1`, then save the screen as
`frameFileName video_name self.frame`. -/
def displayRecordStep (video_name : String) (v : ViewerState) : ViewerState :=
  { frame := v.frame + 1
    saved := v.saved ++ [frameFileName video_name (v.frame + 1)] }

/-- Runs `N` display cycles with capture enabled, starting from the constructor
state (`frame = 0`, no saved images). -/
def runRecordedCycles (video_name : String) : ℕ → ViewerState
  | 0 => { frame := 0, saved := [] }
  | n + 1 => displayRecordStep video_name (runRecordedCycles video_name n)

/-- Observable effects of `EnvViewer.close`. -/
inductive Effect where
  | pygameQuit
  | encodeVideo
  | encodeGif
  | removeTmpDir
  deriving DecidableEq

/-- Source `clear_video_dir`: `shutil.rmtree(TMP_FOLDER, ignore_errors=True)` if the
temporary directory exists, nothing otherwise. -/
def clear_video_dir (tmpExists : Bool) : List Effect :=
  if tmpExists then [Effect.removeTmpDir] else []

/-- Source `EnvViewer.close`: `pygame.quit()`, then if `record_video`: run the ffmpeg
command and the convert command via `os.system` (whose exit statuses —
modelled by `ffmpegExit` and `convertExit` — the source discards without
inspection, so a failing encoder cannot raise), then `clear_video_dir()`.
The command-line arguments (frame rate, file glob, output path) are external
I/O detail not modelled here. -/
def close (record_video : Bool) (tmpExists : Bool) (_ffmpegExit _convertExit : ℤ) :
    List Effect :=
  Effect.pygameQuit ::
    (if record_video then
      [Effect.encodeVideo, Effect.encodeGif] ++ clear_video_dir tmpExists
     else [])

end EnvViewer

/-! ## Helper facts -/

/-- A concrete surface: 400×400, default scaling 15 and centering 0.5, with
the origin already a (2,1) column vector (0, 0). -/
def demoSurface : SimulationSurface :=
  { width := 400
    height := 400
    origin := NpArr.two [[0], [0]]
    scaling := 15
    centering_position := 1 / 2 }

/-- Truncation toward zero is monotone. -/
lemma pyInt_mono {q r : ℚ} (h : q ≤ r) : pyInt q ≤ pyInt r := by
  unfold pyInt
  by_cases hq : 0 ≤ q
  · rw [if_pos hq, if_pos (le_trans hq h)]
    exact Int.floor_le_floor h
  · rw [if_neg hq]
    by_cases hr : 0 ≤ r
    · rw [if_pos hr]
      have h1 : ⌈q⌉ ≤ 0 := by
        rw [Int.ceil_le]
        push_cast
        exact le_of_lt (lt_of_not_le hq)
      have h2 : (0 : ℤ) ≤ ⌊r⌋ := Int.floor_nonneg.mpr hr
      omega
    · rw [if_neg hr]
      exact Int.ceil_le_ceil h

/-! ## Claims -/

/-- C1 (corrected), counterexample to the original claim: with origin (0,0)
and scale 15, the world x-coordinate 0.1 maps to 1.5 pixels; `pos2pix`
returns `int(1.5) = 1`, whereas the claimed `round((P - O) * S)` is 2. -/
theorem C1_counterexample :
    demoSurface.pos2pix (1 / 10) 0 = Except.ok (1, 0)
      ∧ round (((1 : ℚ) / 10 - 0) * 15) = 2 := by
  constructor
  · simp [demoSurface, SimulationSurface.pos2pix, NpArr.idx2, SimulationSurface.pix, pyInt]
    norm_num
  · norm_num [round_eq]

/-- C1 (amended): for every world point (x, y), origin (ox, oy) and scale,
`pos2pix` returns, independently per axis, the truncation toward zero
(Python `int()`) of the difference to the origin scaled — not the nearest
integer. -/
theorem C1_pos2pix_formula (s : SimulationSurface) (ox oy x y : ℚ)
    (h : s.origin = NpArr.two [[ox], [oy]]) :
    s.pos2pix x y
      = Except.ok (pyInt ((x - ox) * s.scaling), pyInt ((y - oy) * s.scaling)) := by
  simp [SimulationSurface.pos2pix, NpArr.idx2, h, SimulationSurface.pix]

/-- Witness for C1 (amended) at the concrete surface `demoSurface`. -/
theorem C1_witness :
    demoSurface.pos2pix (1 / 10) 0
      = Except.ok (pyInt ((1 / 10 - 0) * demoSurface.scaling),
                   pyInt ((0 - 0) * demoSurface.scaling)) :=
  C1_pos2pix_formula demoSurface 0 0 (1 / 10) 0 rfl

/-- C5 (corrected), counterexample to the original claim: at length -0.5 and
scale 15, `pix` returns `int(-7.5) = -7` (truncation toward zero), whereas
the claimed `floor(L * S)` is -8. -/
theorem C5_counterexample :
    demoSurface.pix (-1 / 2) = -7 ∧ ⌊(-1 / 2 : ℚ) * 15⌋ = -8 := by
  constructor
  · have h : ((-1 : ℚ) / 2) * demoSurface.scaling = -(15 / 2) := by
      norm_num [demoSurface]
    show pyInt ((-1 / 2) * demoSurface.scaling) = -7
    unfold pyInt
    rw [h, if_neg (by norm_num), Int.ceil_neg]
    norm_num
  · norm_num

/-- C5 (amended): for every length and a fixed nonnegative scale, `pix`
returns exactly the truncation toward zero of `length * scale` (which equals
the floor for nonnegative products), and is monotone non-decreasing in the
length. -/
theorem C5_pix_trunc_mono (s : SimulationSurface) (L M : ℚ)
    (hS : 0 ≤ s.scaling) (hLM : L ≤ M) :
    s.pix L = pyInt (L * s.scaling) ∧ s.pix L ≤ s.pix M :=
  ⟨rfl, pyInt_mono (mul_le_mul_of_nonneg_right hLM hS)⟩

/-- Witness for C5 (amended) at lengths 1 ≤ 2 on `demoSurface`. -/
theorem C5_witness :
    demoSurface.pix 1 = pyInt (1 * demoSurface.scaling)
      ∧ demoSurface.pix 1 ≤ demoSurface.pix 2 :=
  C5_pix_trunc_mono demoSurface 1 2 (by norm_num [demoSurface]) (by norm_num)

/-- C3: for every world point (px, py) and positive scale,
`move_display_window_to` sets the origin to exactly the column vector
(px - centering_position * width / scaling, py - height / (2 * scaling)) and
changes no other viewport state. -/
theorem C3_move_display_window_to (s : SimulationSurface) (px py : ℚ)
    (_hS : 0 < s.scaling) :
    (s.move_display_window_to px py).origin
        = NpArr.two [[px - s.centering_position * s.width / s.scaling],
                     [py - s.height / (2 * s.scaling)]]
      ∧ (s.move_display_window_to px py).scaling = s.scaling
      ∧ (s.move_display_window_to px py).centering_position = s.centering_position
      ∧ (s.move_display_window_to px py).width = s.width
      ∧ (s.move_display_window_to px py).height = s.height :=
  ⟨rfl, rfl, rfl, rfl, rfl⟩

/-- Witness for C3 at `demoSurface` and world point (0, 0). -/
theorem C3_witness :
    (demoSurface.move_display_window_to 0 0).origin
        = NpArr.two
            [[0 - demoSurface.centering_position * demoSurface.width / demoSurface.scaling],
             [0 - demoSurface.height / (2 * demoSurface.scaling)]]
      ∧ (demoSurface.move_display_window_to 0 0).scaling = demoSurface.scaling
      ∧ (demoSurface.move_display_window_to 0 0).centering_position
          = demoSurface.centering_position
      ∧ (demoSurface.move_display_window_to 0 0).width = demoSurface.width
      ∧ (demoSurface.move_display_window_to 0 0).height = demoSurface.height :=
  C3_move_display_window_to demoSurface 0 0 (by norm_num [demoSurface])

/-- C4: after recentering on any world point, converting that same point
lands at the centering position: the x-pixel lies within [0, width) whenever
the centering fraction is in (0, 1), the scale is positive and the width is
positive. -/
theorem C4_recenter_centers (s : SimulationSurface) (px py : ℚ)
    (hc0 : 0 < s.centering_position) (hc1 : s.centering_position < 1)
    (hS : 0 < s.scaling) (hw : 0 < s.width) :
    ∃ rx ry : ℤ,
      (s.move_display_window_to px py).pos2pix px py = Except.ok (rx, ry)
        ∧ 0 ≤ rx ∧ (rx : ℚ) < s.width := by
  have hS0 : s.scaling ≠ 0 := ne_of_gt hS
  have hq : 0 < s.centering_position * s.width := mul_pos hc0 hw
  have e1 : (s.move_display_window_to px py).pos2pix px py
      = Except.ok
          (pyInt ((px - (px - s.centering_position * s.width / s.scaling)) * s.scaling),
           pyInt ((py - (py - s.height / (2 * s.scaling))) * s.scaling)) := rfl
  have e2 : (px - (px - s.centering_position * s.width / s.scaling)) * s.scaling
      = s.centering_position * s.width := by
    field_simp
  have e3 : (py - (py - s.height / (2 * s.scaling))) * s.scaling = s.height / 2 := by
    field_simp
    ring
  rw [e2, e3] at e1
  refine ⟨pyInt (s.centering_position * s.width), pyInt (s.height / 2), e1, ?_, ?_⟩
  · unfold pyInt
    rw [if_pos hq.le]
    exact Int.floor_nonneg.mpr hq.le
  · unfold pyInt
    rw [if_pos hq.le]
    calc ((⌊s.centering_position * s.width⌋ : ℚ))
        ≤ s.centering_position * s.width := Int.floor_le _
      _ < s.width := mul_lt_of_lt_one_left hw hc1

/-- Witness for C4 on the 400×400 surface with scale 15 and centering 0.5:
recentering on (0, 0) and converting (0, 0) yields the pixel (200, 200). -/
theorem C4_witness :
    ((SimulationSurface.init 400 400).move_display_window_to 0 0).pos2pix 0 0
        = Except.ok (200, 200)
      ∧ ∃ rx ry : ℤ,
          ((SimulationSurface.init 400 400).move_display_window_to 0 0).pos2pix 0 0
              = Except.ok (rx, ry)
            ∧ 0 ≤ rx ∧ (rx : ℚ) < (SimulationSurface.init 400 400).width :=
  ⟨by
     simp [SimulationSurface.init, SimulationSurface.move_display_window_to,
       SimulationSurface.pos2pix, NpArr.idx2, SimulationSurface.pix, pyInt]
     norm_num,
   C4_recenter_centers (SimulationSurface.init 400 400) 0 0
     (by norm_num [SimulationSurface.init]) (by norm_num [SimulationSurface.init])
     (by norm_num [SimulationSurface.init]) (by norm_num [SimulationSurface.init])⟩

/-- The multiplicative effect of one event on the scaling. -/
def eventScalingFactor : Event → ℚ
  | Event.keydown Key.K_l => 1 / SimulationSurface.SCALING_FACTOR
  | Event.keydown Key.K_o => SimulationSurface.SCALING_FACTOR
  | _ => 1

/-- Each event multiplies the scaling by its `eventScalingFactor`. -/
lemma handle_event_scaling (s : SimulationSurface) (e : Event) :
    (s.handle_event e).scaling = s.scaling * eventScalingFactor e := by
  cases e with
  | keydown k =>
    cases k <;> simp [SimulationSurface.handle_event, eventScalingFactor]
  | quit => simp [SimulationSurface.handle_event, eventScalingFactor]
  | otherEvent => simp [SimulationSurface.handle_event, eventScalingFactor]

/-- Folding a list of events multiplies the scaling by the product of the
per-event factors. -/
lemma handle_events_scaling (es : List Event) (s : SimulationSurface) :
    (es.foldl SimulationSurface.handle_event s).scaling
      = s.scaling * (es.map eventScalingFactor).prod := by
  induction es generalizing s with
  | nil => simp
  | cons e es ih =>
    simp [List.foldl_cons, ih, handle_event_scaling, mul_assoc]

/-- C6: processing the zoom-in key (`K_o`, scaling *= 1.3) twice and the
zoom-out key (`K_l`, scaling *= 1/1.3) twice, in any interleaving, returns
the scaling to its starting value exactly (over exact rational
arithmetic). -/
theorem C6_zoom_roundtrip (s : SimulationSurface) (es : List Event)
    (h : es.Perm
      [Event.keydown Key.K_o, Event.keydown Key.K_o,
       Event.keydown Key.K_l, Event.keydown Key.K_l]) :
    (es.foldl SimulationSurface.handle_event s).scaling = s.scaling := by
  rw [handle_events_scaling, List.Perm.prod_eq (List.Perm.map eventScalingFactor h)]
  norm_num [eventScalingFactor, SimulationSurface.SCALING_FACTOR]

/-- Witness for C6: the interleaving in–out–in–out starting from
`demoSurface`. -/
theorem C6_witness :
    ([Event.keydown Key.K_o, Event.keydown Key.K_o,
      Event.keydown Key.K_l, Event.keydown Key.K_l].foldl
        SimulationSurface.handle_event demoSurface).scaling
      = demoSurface.scaling :=
  C6_zoom_roundtrip demoSurface _ (List.Perm.refl _)

/-- C7: `handle_event` mutates at most one field.  The surface dimensions
never change; the pan keys `K_m`/`K_k` change only the centering fraction,
by exactly -0.1 / +0.1; the zoom keys `K_l`/`K_o` change only the scaling;
every other event (QUIT, a KEYDOWN with any other key, or any non-key
event) leaves the whole state unchanged. -/
theorem C7_handle_event_frame (s : SimulationSurface) :
    (∀ e : Event, (s.handle_event e).width = s.width
        ∧ (s.handle_event e).height = s.height)
      ∧ ((s.handle_event (Event.keydown Key.K_m)).centering_position
            = s.centering_position - SimulationSurface.MOVING_FACTOR
          ∧ (s.handle_event (Event.keydown Key.K_m)).origin = s.origin
          ∧ (s.handle_event (Event.keydown Key.K_m)).scaling = s.scaling)
      ∧ ((s.handle_event (Event.keydown Key.K_k)).centering_position
            = s.centering_position + SimulationSurface.MOVING_FACTOR
          ∧ (s.handle_event (Event.keydown Key.K_k)).origin = s.origin
          ∧ (s.handle_event (Event.keydown Key.K_k)).scaling = s.scaling)
      ∧ ((s.handle_event (Event.keydown Key.K_l)).centering_position
            = s.centering_position
          ∧ (s.handle_event (Event.keydown Key.K_l)).origin = s.origin
          ∧ (s.handle_event (Event.keydown Key.K_l)).scaling
              = s.scaling * (1 / SimulationSurface.SCALING_FACTOR))
      ∧ ((s.handle_event (Event.keydown Key.K_o)).centering_position
            = s.centering_position
          ∧ (s.handle_event (Event.keydown Key.K_o)).origin = s.origin
          ∧ (s.handle_event (Event.keydown Key.K_o)).scaling
              = s.scaling * SimulationSurface.SCALING_FACTOR)
      ∧ s.handle_event Event.quit = s
      ∧ s.handle_event (Event.keydown Key.otherKey) = s
      ∧ s.handle_event Event.otherEvent = s := by
  refine ⟨fun e => ?_, ?_, ?_, ?_, ?_, rfl, rfl, rfl⟩
  · cases e with
    | keydown k => cases k <;> exact ⟨rfl, rfl⟩
    | quit => exact ⟨rfl, rfl⟩
    | otherEvent => exact ⟨rfl, rfl⟩
  · exact ⟨rfl, rfl, rfl⟩
  · exact ⟨rfl, rfl, rfl⟩
  · exact ⟨rfl, rfl, rfl⟩
  · exact ⟨rfl, rfl, rfl⟩

/-- C2 (the code at the failing input): with no dynamics object present,
`display_dynamics(None, surface)` raises `AttributeError` on
`None.position`, and since `EnvViewer.display` calls it unconditionally the
whole draw pass fails for every scene rather than skipping the agent
step. -/
theorem C2_display_none_raises (s : SimulationSurface) :
    Scene2dGraphics.display_dynamics none s = Except.error PyError.attributeError
      ∧ ∀ scene : Scene, ∃ e : PyError,
          EnvViewer.drawPass scene none s = Except.error e := by
  refine ⟨rfl, fun scene => ?_⟩
  unfold EnvViewer.drawPass
  cases hd : Scene2dGraphics.display scene s with
  | error e => exact ⟨e, rfl⟩
  | ok calls => exact ⟨PyError.attributeError, rfl⟩

/-- C8: with capture enabled, after N display cycles the frame counter
equals N and the saved images are exactly the N files with indices 1..N
(zero-padded to 4 digits, prefixed by the session name); index 0 is never
produced. -/
theorem C8_capture_frames (video_name : String) (N : ℕ) :
    (EnvViewer.runRecordedCycles video_name N).frame = N
      ∧ (EnvViewer.runRecordedCycles video_name N).saved
          = (List.range N).map (fun i => EnvViewer.frameFileName video_name (i + 1)) := by
  induction N with
  | zero => exact ⟨rfl, rfl⟩
  | succ n ih =>
    refine ⟨?_, ?_⟩
    · simp [EnvViewer.runRecordedCycles, EnvViewer.displayRecordStep, ih.1]
    · simp [EnvViewer.runRecordedCycles, EnvViewer.displayRecordStep, ih.1, ih.2,
        List.range_succ]

/-- C9: with capture enabled, `close` emits `pygame.quit`, then both external
encoding invocations (video, then animated image), then the removal of the
temporary frame directory — for every pair of encoder exit statuses, which
the source never inspects, so encoding failures cannot propagate. -/
theorem C9_close_encodes_then_cleans (ffmpegExit convertExit : ℤ) :
    EnvViewer.close true true ffmpegExit convertExit
      = [EnvViewer.Effect.pygameQuit, EnvViewer.Effect.encodeVideo,
         EnvViewer.Effect.encodeGif, EnvViewer.Effect.removeTmpDir] :=
  rfl

/-- C10: on a freshly constructed surface the origin is the 1-D array
`np.array([0, 0])`, so `pos2pix` raises `IndexError` (too many indices);
after `move_display_window_to` with a (2,1) column-vector position, the
origin is a (2,1) matrix and `pos2pix` succeeds. -/
theorem C10_pos2pix_before_recenter (w h x y px py : ℚ) :
    (SimulationSurface.init w h).pos2pix x y = Except.error PyError.indexError
      ∧ ∃ rx ry : ℤ,
          ((SimulationSurface.init w h).move_display_window_to px py).pos2pix x y
            = Except.ok (rx, ry) :=
  ⟨rfl, _, _, rfl⟩

end ObstacleEnv
